import Mathlib

/-!
# dwolla-v2-go: webhook subscriptions

A shallow embedding of `webhook_subscription.go`.

* Go structs are Lean structures with the same field names; struct embedding
  (`Resource`, `Collection`) is `extends`.
* A Go `map[string]V` is `GoMap V`: `none` is the nil map, `some es` a map
  whose entries are the association list `es` (the first entry of a key is the
  one a lookup sees).  A slice is a `List`.
* A pointer result `*T` is `Option T` (`none` is `nil`), an `error` result is
  `Option GoError` (`none` is `nil`).
* The HTTP client (`*Client` with `Get`, `Post`, `Delete`) is declared outside
  this file.  It is taken as a parameter: a `Behaviour σ` gives, for an
  arbitrary state `σ` of the client and the remote service, what each call
  does to that state, to the value behind the `out` pointer, and which error
  it returns.  The calls made are recorded in `World.trace`.
* Receivers are non-nil.  A call on the collaborator always returns: a panic
  or a call that never returns inside the collaborator is outside the model.
-/

set_option autoImplicit false

namespace Dwolla

/-! ## Go values -/

/-- Go `error` value, observed through its message. -/
structure GoError where
  msg : String
  deriving DecidableEq, Repr

/-- Go `errors.New`. -/
def errors.New (text : String) : GoError := ⟨text⟩

/-- Go `context.Context`, an identity that is only passed through. -/
structure Context where
  id : Nat
  deriving DecidableEq, Repr

/-- Go `map[string]V`; `none` is the nil map. -/
abbrev GoMap (V : Type) := Option (List (String × V))

/-- Go `v, ok := m[key]`: `some v` when `ok`, `none` otherwise. -/
def GoMap.lookup {V : Type} (m : GoMap V) (key : String) : Option V :=
  match m with
  | none => none
  | some es => es.lookup key

/-- Go `m[key]`: the zero value `zero` when the key is absent. -/
def GoMap.index {V : Type} (zero : V) (m : GoMap V) (key : String) : V :=
  (m.lookup key).getD zero

/-- Apply `g` to the value of the first entry stored under `key`. -/
def adjust {V : Type} (key : String) (g : V → V) : List (String × V) → List (String × V)
  | [] => []
  | (k, v) :: es => if key == k then (k, g v) :: es else (k, v) :: adjust key g es

/-- Go `xs[i] = f (xs[i])` on a slice; the loops of this file only use an
index below `len(xs)`. -/
def sliceModify {α : Type} (f : α → α) (i : Nat) (xs : List α) : List α :=
  match xs.get? i with
  | some x => xs.set i (f x)
  | none => xs

/-- Go `m[key][i] = f (m[key][i])` for a map of slices: the write goes to the
backing array of the slice stored under `key`, which the map entry shares. -/
def GoMap.setElem {α : Type} (m : GoMap (List α)) (key : String) (i : Nat) (f : α → α) :
    GoMap (List α) :=
  m.map (adjust key (sliceModify f i))

/-- Go `for i := range n { s = body i s }` with the bound fixed on entry. -/
def forRange {σ : Type} (n : Nat) (body : Nat → σ → σ) (init : σ) : σ :=
  (List.range n).foldl (fun s i => body i s) init

/-- Formatting of `fmt.Sprintf` restricted to the verbs `%s` and `%%` with
string operands. -/
def Sprintf.go : List Char → List String → List Char
  | [], _ => []
  | c :: rest, args =>
    if c = '%' then
      match rest, args with
      | d :: rest', a :: args' =>
        if d = 's' then a.data ++ Sprintf.go rest' args'
        else if d = '%' then '%' :: Sprintf.go rest' args
        else c :: d :: Sprintf.go rest' args
      | d :: rest', [] =>
        if d = 's' then "%!s(MISSING)".data ++ Sprintf.go rest' []
        else if d = '%' then '%' :: Sprintf.go rest' []
        else c :: d :: Sprintf.go rest' []
      | [], _ => "%!(NOVERB)".data
    else c :: Sprintf.go rest args

/-- Go `fmt.Sprintf(format, args...)` for string operands. -/
def fmt.Sprintf (format : String) (args : List String) : String :=
  ⟨Sprintf.go format.data args⟩

/-! ## Data model -/

/-- Modelled from the spec: the `*Client` pointer of the external HTTP
collaborator, whose declaration is not in this file; `none` is `nil`, and
`some a` the client at address `a`. -/
abbrev ClientPtr := Option Nat

/-- Modelled from the spec: a hyperlink "a named URL embedded in a response";
the declaration of `Link` is not in this file, which reads only `Href`. -/
structure Link where
  Href : String
  deriving DecidableEq, Repr

/-- Modelled from the spec: the embedded `Resource` struct, declared outside
this file, which reads its fields `client` and `Links`. -/
structure Resource where
  client : ClientPtr
  Links : GoMap Link
  deriving DecidableEq, Repr

/-- Modelled from the spec: the embedded `Collection` struct, declared outside
this file, which writes its field `client`. -/
structure Collection where
  client : ClientPtr
  Links : GoMap Link
  deriving DecidableEq, Repr

/-- WebhookSubscription is a webhook subscription. -/
structure WebhookSubscription extends Resource where
  ID : String
  URL : String
  Created : String
  deriving DecidableEq, Repr

/-- WebhookSubscriptions is a collection of webhook subscriptions. -/
structure WebhookSubscriptions extends Collection where
  Embedded : GoMap (List WebhookSubscription)
  Total : Int
  deriving DecidableEq, Repr

/-- WebhookSubscriptionRequest is a webhook subscription request. -/
structure WebhookSubscriptionRequest where
  URL : String
  Secret : String
  Paused : Bool
  deriving DecidableEq, Repr

/-- Modelled from the spec: the `Webhook` entity, declared outside this file;
beside the embedded `Resource` its exported fields are kept as `Fields`. -/
structure Webhook extends Resource where
  ID : String
  Fields : List (String × String)
  deriving DecidableEq, Repr

/-- Modelled from the spec: the `Webhooks` collection, declared outside this
file, which reads `Embedded` and writes `client`. -/
structure Webhooks extends Collection where
  Embedded : GoMap (List Webhook)
  Total : Int
  deriving DecidableEq, Repr

/-- WebhookSubscriptionServiceOp is an implementation of the webhook
subscription service interface. -/
structure WebhookSubscriptionServiceOp where
  client : ClientPtr
  deriving DecidableEq, Repr

/-- Zero value of `WebhookSubscription` (`var subscription WebhookSubscription`). -/
def WebhookSubscription.zero : WebhookSubscription :=
  { client := none, Links := none, ID := "", URL := "", Created := "" }

/-- Zero value of `WebhookSubscriptions`. -/
def WebhookSubscriptions.zero : WebhookSubscriptions :=
  { client := none, Links := none, Embedded := none, Total := 0 }

/-- Zero value of `Webhooks`. -/
def Webhooks.zero : Webhooks :=
  { client := none, Links := none, Embedded := none, Total := 0 }

/-- Zero value of `Link`. -/
def Link.zero : Link := { Href := "" }

/-! ## The HTTP collaborator -/

/-- HTTP method of a call on the client. -/
inductive Method where
  | GET
  | POST
  | DELETE
  deriving DecidableEq, Repr

/-- Type of the value behind the `out` argument of `Get` and `Post`. -/
inductive OutKind where
  | subscription
  | subscriptions
  | webhooks
  deriving DecidableEq, Repr

/-- Go type whose pointer is passed as `out`. -/
@[reducible] def OutKind.type : OutKind → Type
  | .subscription => WebhookSubscription
  | .subscriptions => WebhookSubscriptions
  | .webhooks => Webhooks

/-- Query parameters or headers argument (`nil` at every call of this file). -/
abbrev Values := Option (List (String × String))

/-- What a call hands to the collaborator, beside the client, the context
and the `out` pointer. -/
structure Request where
  method : Method
  path : String
  body : Option WebhookSubscriptionRequest
  params : Values
  headers : Values
  deriving DecidableEq, Repr

/-- One call on the HTTP collaborator. -/
structure Call where
  client : ClientPtr
  ctx : Context
  request : Request
  out : Option OutKind
  deriving DecidableEq, Repr

/-- Result of a `Get` or `Post`: the state of the collaborator and the remote
service after the call, the value left behind the `out` pointer, and the
returned error. -/
structure Reply (σ α : Type) where
  state : σ
  out : α
  err : Option GoError

/-- Modelled from the spec: the external HTTP client collaborator (`Get`,
`Post`, `Delete` methods of `*Client`), which is not in this file.  Any
behaviour is allowed: each method is an arbitrary function of the collaborator
state, the receiver, the arguments and the value currently behind `out`. -/
structure Behaviour (σ : Type) where
  Get : (k : OutKind) → σ → ClientPtr → Context → String → Values → Values → k.type →
    Reply σ k.type
  Post : (k : OutKind) → σ → ClientPtr → Context → String →
    Option WebhookSubscriptionRequest → Values → k.type → Reply σ k.type
  Delete : σ → ClientPtr → Context → String → Values → Values → σ × Option GoError

/-- State of everything outside the caller: the collaborator state and the
calls made on the collaborator so far, oldest first. -/
structure World (σ : Type) where
  state : σ
  trace : List Call

/-- Call `c.Get(ctx, path, params, headers, &out)`. -/
def Client.Get {σ : Type} (B : Behaviour σ) (k : OutKind) (c : ClientPtr) (ctx : Context)
    (path : String) (params headers : Values) (out : k.type) (s : World σ) :
    World σ × k.type × Option GoError :=
  let r := B.Get k s.state c ctx path params headers out
  (⟨r.state, s.trace ++ [⟨c, ctx, ⟨.GET, path, none, params, headers⟩, some k⟩]⟩, r.out, r.err)

/-- Call `c.Post(ctx, path, body, headers, &out)`. -/
def Client.Post {σ : Type} (B : Behaviour σ) (k : OutKind) (c : ClientPtr) (ctx : Context)
    (path : String) (body : Option WebhookSubscriptionRequest) (headers : Values)
    (out : k.type) (s : World σ) : World σ × k.type × Option GoError :=
  let r := B.Post k s.state c ctx path body headers out
  (⟨r.state, s.trace ++ [⟨c, ctx, ⟨.POST, path, body, none, headers⟩, some k⟩]⟩, r.out, r.err)

/-- Call `c.Delete(ctx, path, params, headers)`. -/
def Client.Delete {σ : Type} (B : Behaviour σ) (c : ClientPtr) (ctx : Context)
    (path : String) (params headers : Values) (s : World σ) : World σ × Option GoError :=
  let r := B.Delete s.state c ctx path params headers
  (⟨r.1, s.trace ++ [⟨c, ctx, ⟨.DELETE, path, none, params, headers⟩, none⟩]⟩, r.2)

/-! ## Service operations -/

/-- Create creates a webhook subscription. -/
def WebhookSubscriptionServiceOp.Create {σ : Type} (B : Behaviour σ)
    (w : WebhookSubscriptionServiceOp) (ctx : Context)
    (body : Option WebhookSubscriptionRequest) (s : World σ) :
    World σ × Option WebhookSubscription × Option GoError :=
  let subscription := WebhookSubscription.zero
  match Client.Post B .subscription w.client ctx "webhook-subscriptions" body none
      subscription s with
  | (s, _, some err) => (s, none, some err)
  | (s, subscription, none) =>
    let subscription := { subscription with client := w.client }
    (s, some subscription, none)

/-- Retrieve retrieves the webhook subscription matching id. -/
def WebhookSubscriptionServiceOp.Retrieve {σ : Type} (B : Behaviour σ)
    (w : WebhookSubscriptionServiceOp) (ctx : Context) (id : String) (s : World σ) :
    World σ × Option WebhookSubscription × Option GoError :=
  let subscription := WebhookSubscription.zero
  match Client.Get B .subscription w.client ctx
      (fmt.Sprintf "webhook-subscriptions/%s" [id]) none none subscription s with
  | (s, _, some err) => (s, none, some err)
  | (s, subscription, none) =>
    let subscription := { subscription with client := w.client }
    (s, some subscription, none)

/-- List returns a list of webhook subscriptions. -/
def WebhookSubscriptionServiceOp.List {σ : Type} (B : Behaviour σ)
    (w : WebhookSubscriptionServiceOp) (ctx : Context) (s : World σ) :
    World σ × Option WebhookSubscriptions × Option GoError :=
  let subscriptions := WebhookSubscriptions.zero
  match Client.Get B .subscriptions w.client ctx "webhook-subscriptions" none none
      subscriptions s with
  | (s, _, some err) => (s, none, some err)
  | (s, subscriptions, none) =>
    let subscriptions := { subscriptions with client := w.client }
    let subscriptions :=
      forRange (subscriptions.Embedded.index [] "webhook-subscriptions").length
        (fun i subscriptions =>
          { subscriptions with
            Embedded := subscriptions.Embedded.setElem "webhook-subscriptions" i
              (fun e => { e with client := w.client }) })
        subscriptions
    (s, some subscriptions, none)

/-- Remove removes the webhook subscription matching the id. -/
def WebhookSubscriptionServiceOp.Remove {σ : Type} (B : Behaviour σ)
    (w : WebhookSubscriptionServiceOp) (ctx : Context) (id : String) (s : World σ) :
    World σ × Option GoError :=
  Client.Delete B w.client ctx (fmt.Sprintf "webhook-subscriptions/%s" [id]) none none s

/-! ## Instance operations

`Pause` and `Unpause` pass the receiver itself as `out`, so they return the
receiver's value after the call; `Remove` and `RetrieveWebhooks` hand no
pointer to the receiver to anyone and do not assign to it. -/

/-- Pause pauses the webhook subscription. -/
def WebhookSubscription.Pause {σ : Type} (B : Behaviour σ) (w : WebhookSubscription)
    (ctx : Context) (s : World σ) : World σ × WebhookSubscription × Option GoError :=
  match w.Links.lookup "self" with
  | none => (s, w, some (errors.New "No self resource link"))
  | some _ =>
    let body : WebhookSubscriptionRequest := { URL := "", Secret := "", Paused := true }
    Client.Post B .subscription w.client ctx (w.Links.index Link.zero "self").Href
      (some body) none w s

/-- Remove removes the webhook subscription. -/
def WebhookSubscription.Remove {σ : Type} (B : Behaviour σ) (w : WebhookSubscription)
    (ctx : Context) (s : World σ) : World σ × Option GoError :=
  match w.Links.lookup "self" with
  | none => (s, some (errors.New "No self resource link"))
  | some _ =>
    Client.Delete B w.client ctx (w.Links.index Link.zero "self").Href none none s

/-- Unpause unpauses the webhook subscription. -/
def WebhookSubscription.Unpause {σ : Type} (B : Behaviour σ) (w : WebhookSubscription)
    (ctx : Context) (s : World σ) : World σ × WebhookSubscription × Option GoError :=
  match w.Links.lookup "self" with
  | none => (s, w, some (errors.New "No self resource link"))
  | some _ =>
    let body : WebhookSubscriptionRequest := { URL := "", Secret := "", Paused := false }
    Client.Post B .subscription w.client ctx (w.Links.index Link.zero "self").Href
      (some body) none w s

/-- RetrieveWebhooks returns webhooks for this webhook subscription. -/
def Webhook.RetrieveWebhooks {σ : Type} (B : Behaviour σ) (w : Webhook) (ctx : Context)
    (s : World σ) : World σ × Option Webhooks × Option GoError :=
  let webhooks := Webhooks.zero
  match w.Links.lookup "webhooks" with
  | none => (s, none, some (errors.New "No webhooks resource link"))
  | some _ =>
    match Client.Get B .webhooks w.client ctx (w.Links.index Link.zero "webhooks").Href
        none none webhooks s with
    | (s, _, some err) => (s, none, some err)
    | (s, webhooks, none) =>
      let webhooks := { webhooks with client := w.client }
      let webhooks :=
        forRange (webhooks.Embedded.index [] "webhooks").length
          (fun i webhooks =>
            { webhooks with
              Embedded := webhooks.Embedded.setElem "webhooks" i
                (fun e => { e with client := w.client }) })
          webhooks
      (s, some webhooks, none)

/-! ## Trace entries -/

/-- Trace entry of `c.Get(ctx, path, nil, nil, &out)` with `out` of kind `k`. -/
def getCall (c : ClientPtr) (ctx : Context) (path : String) (k : OutKind) : Call :=
  ⟨c, ctx, ⟨.GET, path, none, none, none⟩, some k⟩

/-- Trace entry of `c.Post(ctx, path, body, nil, &out)` with `out` of kind `k`. -/
def postCall (c : ClientPtr) (ctx : Context) (path : String)
    (body : Option WebhookSubscriptionRequest) (k : OutKind) : Call :=
  ⟨c, ctx, ⟨.POST, path, body, none, none⟩, some k⟩

/-- Trace entry of `c.Delete(ctx, path, nil, nil)`. -/
def deleteCall (c : ClientPtr) (ctx : Context) (path : String) : Call :=
  ⟨c, ctx, ⟨.DELETE, path, none, none, none⟩, none⟩

/-! ## Sequences of calls and sample collaborators -/

/-- What `List` leaves in the collection the collaborator decoded as `d`. -/
def attachSubscriptions (c : ClientPtr) (d : WebhookSubscriptions) : WebhookSubscriptions :=
  { d with
    client := c
    Embedded := d.Embedded.map
      (adjust "webhook-subscriptions" (List.map (fun e => { e with client := c }))) }

/-- What `RetrieveWebhooks` leaves in the collection the collaborator decoded as `d`. -/
def attachWebhooks (c : ClientPtr) (d : Webhooks) : Webhooks :=
  { d with
    client := c
    Embedded := d.Embedded.map (adjust "webhooks" (List.map (fun e => { e with client := c }))) }

/-- The local precondition error of `Pause`, `Unpause` and `Remove`. -/
def noSelfLink : GoError := errors.New "No self resource link"

/-- The request body built by `Pause` (`flag = true`) and `Unpause`
(`flag = false`): `&WebhookSubscriptionRequest{Paused: flag}`. -/
def pausedBody (flag : Bool) : WebhookSubscriptionRequest :=
  { URL := "", Secret := "", Paused := flag }

/-- The request `Pause` (`flag = true`) and `Unpause` (`flag = false`) send for
the self link `l`. -/
def pausedRequest (l : Link) (flag : Bool) : Request :=
  ⟨.POST, l.Href, some ⟨"", "", flag⟩, none, none⟩

/-- Caller code `if flag { w.Pause(ctx) } else { w.Unpause(ctx) }`. -/
def WebhookSubscription.setPaused {σ : Type} (B : Behaviour σ) (flag : Bool)
    (w : WebhookSubscription) (ctx : Context) (s : World σ) :
    World σ × WebhookSubscription × Option GoError :=
  if flag then w.Pause B ctx s else w.Unpause B ctx s

/-- Caller code running `Pause`/`Unpause` on one subscription, one call per
flag of the list, ignoring the returned errors. -/
def pauseSeq {σ : Type} (B : Behaviour σ) (ctx : Context) :
    List Bool → World σ × WebhookSubscription → World σ × WebhookSubscription
  | [], st => st
  | flag :: rest, st =>
    let r := st.2.setPaused B flag ctx st.1
    pauseSeq B ctx rest (r.1, r.2.1)

/-- The subscription's `"self"` link is `l` before each call of the run
`pauseSeq B ctx flags st`. -/
def selfLinkKept {σ : Type} (B : Behaviour σ) (ctx : Context) (l : Link) :
    List Bool → World σ × WebhookSubscription → Bool
  | [], _ => true
  | flag :: rest, st =>
    let r := st.2.setPaused B flag ctx st.1
    decide (st.2.Links.lookup "self" = some l) && selfLinkKept B ctx l rest (r.1, r.2.1)

/-- Record an in-memory service keeps for its `n`-th subscription. -/
def memServer.record (n : Nat) (url : String) : WebhookSubscription :=
  let id := String.mk (List.replicate (n + 1) 'i')
  { client := none
    Links := some [("self", ⟨"webhook-subscriptions/" ++ id⟩)]
    ID := id
    URL := url
    Created := "2026-01-01T00:00:00.000Z" }

/-- Stored record addressed by `path`. -/
def memServer.find (path : String) (st : List WebhookSubscription) :
    Option WebhookSubscription :=
  st.find? (fun r => "webhook-subscriptions/" ++ r.ID == path)

/-- A collaborator that keeps the subscriptions in memory: `POST
webhook-subscriptions` stores a record with the posted URL, a `GET`, `POST` or
`DELETE` on a record's path answers with that record, and the collection is
the whole store.  Decoding leaves the unexported `client` of `out` alone. -/
def memServer : Behaviour (List WebhookSubscription) where
  Get := fun k st _ _ path _ _ out =>
    match k, out with
    | .subscription, out =>
      match memServer.find path st with
      | some r => ⟨st, { r with client := out.client }, none⟩
      | none => ⟨st, out, some ⟨"404 Not Found"⟩⟩
    | .subscriptions, out =>
      if path = "webhook-subscriptions" then
        ⟨st, { out with Embedded := some [("webhook-subscriptions", st)], Total := st.length },
          none⟩
      else ⟨st, out, some ⟨"404 Not Found"⟩⟩
    | .webhooks, out => ⟨st, { out with Embedded := some [("webhooks", [])], Total := 0 }, none⟩
  Post := fun k st _ _ path body _ out =>
    match k, out with
    | .subscription, out =>
      if path = "webhook-subscriptions" then
        match body with
        | some b =>
          let r := memServer.record st.length b.URL
          ⟨st ++ [r], { r with client := out.client }, none⟩
        | none => ⟨st, out, some ⟨"400 Bad Request"⟩⟩
      else
        match memServer.find path st with
        | some r => ⟨st, { r with client := out.client }, none⟩
        | none => ⟨st, out, some ⟨"404 Not Found"⟩⟩
    | .subscriptions, out => ⟨st, out, some ⟨"405 Method Not Allowed"⟩⟩
    | .webhooks, out => ⟨st, out, some ⟨"405 Method Not Allowed"⟩⟩
  Delete := fun st _ _ path _ _ =>
    match memServer.find path st with
    | some _ => (st.filter (fun r => !("webhook-subscriptions/" ++ r.ID == path)), none)
    | none => (st, some ⟨"404 Not Found"⟩)

/-- A collaborator that answers every call with a canned response: the
subscription `rec`, or one page holding `rec` of a collection of `total`
subscriptions. -/
def cannedServer (rec : WebhookSubscription) (total : Int) : Behaviour Unit where
  Get := fun k st _ _ _ _ _ out =>
    match k, out with
    | .subscription, out => ⟨st, { rec with client := out.client }, none⟩
    | .subscriptions, out =>
      ⟨st, { out with Embedded := some [("webhook-subscriptions", [rec])], Total := total }, none⟩
    | .webhooks, out => ⟨st, out, none⟩
  Post := fun k st _ _ _ _ _ out =>
    match k, out with
    | .subscription, out => ⟨st, { rec with client := out.client }, none⟩
    | .subscriptions, out => ⟨st, out, none⟩
    | .webhooks, out => ⟨st, out, none⟩
  Delete := fun st _ _ _ _ _ => (st, none)

/-- A service value whose client sits at address 1. -/
def sampleService : WebhookSubscriptionServiceOp := { client := some 1 }

/-- A context. -/
def sampleCtx : Context := ⟨0⟩

/-- The first record of the in-memory service, as its client got it. -/
def sampleSubscription : WebhookSubscription :=
  { memServer.record 0 "https://example.com/hook" with client := some 1 }

/-- The in-memory service holding one subscription, before any call. -/
def sampleWorld : World (List WebhookSubscription) :=
  { state := [memServer.record 0 "https://example.com/hook"], trace := [] }

/-- A subscription that came without links. -/
def unlinkedSubscription : WebhookSubscription :=
  { client := some 1, Links := none, ID := "i", URL := "https://example.com/hook", Created := "" }

/-- A webhook whose links lack `"webhooks"`. -/
def unlinkedWebhook : Webhook :=
  { client := some 1, Links := some [("self", ⟨"webhooks/1"⟩)], ID := "1", Fields := [] }

/-- A subscription whose `"self"` link has an empty `Href`. -/
def emptyHrefSubscription : WebhookSubscription :=
  { client := some 1, Links := some [("self", ⟨""⟩)], ID := "i", URL := "", Created := "" }

/-- A webhook whose `"webhooks"` link has an empty `Href`. -/
def emptyHrefWebhook : Webhook :=
  { client := some 1, Links := some [("webhooks", ⟨""⟩)], ID := "1", Fields := [] }

/-! ## Auxiliary facts -/

theorem Sprintf_path (id : String) :
    fmt.Sprintf "webhook-subscriptions/%s" [id] = "webhook-subscriptions/" ++ id := by
  apply String.ext
  simp [fmt.Sprintf, Sprintf.go]

theorem forRange_zero {σ : Type} (body : Nat → σ → σ) (init : σ) :
    forRange 0 body init = init := rfl

theorem forRange_succ {σ : Type} (n : Nat) (body : Nat → σ → σ) (init : σ) :
    forRange (n + 1) body init = body n (forRange n body init) := by
  simp [forRange, List.range_succ, List.foldl_append]

theorem adjust_comp {V : Type} (key : String) (g h : V → V) (es : List (String × V)) :
    adjust key g (adjust key h es) = adjust key (g ∘ h) es := by
  induction es with
  | nil => rfl
  | cons e es ih =>
    obtain ⟨k, v⟩ := e
    by_cases hk : key = k
    · simp [adjust, hk]
    · simp [adjust, hk, ih]

theorem adjust_id {V : Type} (key : String) (g : V → V) (hg : ∀ v, g v = v)
    (es : List (String × V)) : adjust key g es = es := by
  induction es with
  | nil => rfl
  | cons e es ih =>
    obtain ⟨k, v⟩ := e
    by_cases hk : key = k
    · simp [adjust, hk, hg]
    · simp [adjust, hk, ih]

theorem lookup_cons_eq {V : Type} (k : String) (v : V) (es : List (String × V)) :
    List.lookup k ((k, v) :: es) = some v := by
  simp [List.lookup]

theorem lookup_cons_ne {V : Type} (key k : String) (hk : key ≠ k) (v : V)
    (es : List (String × V)) : List.lookup key ((k, v) :: es) = List.lookup key es := by
  have hb : (key == k) = false := by simpa using hk
  simp [List.lookup, hb]

theorem lookup_adjust {V : Type} (key : String) (g : V → V) (es : List (String × V)) :
    (adjust key g es).lookup key = (es.lookup key).map g := by
  induction es with
  | nil => rfl
  | cons e es ih =>
    obtain ⟨k, v⟩ := e
    by_cases hk : key = k
    · subst hk
      simp [adjust, lookup_cons_eq]
    · simp [adjust, hk, lookup_cons_ne key k hk, ih]

theorem lookup_adjust_ne {V : Type} (key k : String) (hk : k ≠ key) (g : V → V)
    (es : List (String × V)) : (adjust key g es).lookup k = es.lookup k := by
  induction es with
  | nil => rfl
  | cons e es ih =>
    obtain ⟨k', v⟩ := e
    by_cases hk' : key = k'
    · subst hk'
      simp [adjust, lookup_cons_ne k key hk]
    · by_cases hkk : k = k'
      · subst hkk
        simp [adjust, hk', lookup_cons_eq]
      · simp [adjust, hk', lookup_cons_ne k k' hkk, ih]

theorem adjust_absent {V : Type} (key : String) (g : V → V) (es : List (String × V))
    (h : es.lookup key = none) : adjust key g es = es := by
  induction es with
  | nil => rfl
  | cons e es ih =>
    obtain ⟨k, v⟩ := e
    by_cases hk : key = k
    · subst hk
      simp [lookup_cons_eq] at h
    · rw [lookup_cons_ne key k hk] at h
      simp [adjust, hk, ih h]

theorem adjust_congr {V : Type} (key : String) (g h : V → V) (es : List (String × V))
    (hgh : ∀ v, es.lookup key = some v → g v = h v) : adjust key g es = adjust key h es := by
  induction es with
  | nil => rfl
  | cons e es ih =>
    obtain ⟨k, v⟩ := e
    by_cases hk : key = k
    · subst hk
      simp [adjust, hgh v (lookup_cons_eq _ _ _)]
    · have ih' := ih (fun v hv => hgh v (by rw [lookup_cons_ne key k hk]; exact hv))
      simp [adjust, hk, ih']

theorem sliceModify_cons_succ {α : Type} (f : α → α) (i : Nat) (x : α) (xs : List α) :
    sliceModify f (i + 1) (x :: xs) = x :: sliceModify f i xs := by
  unfold sliceModify
  rw [List.get?_cons_succ]
  cases xs.get? i <;> rfl

theorem sliceModify_upto {α : Type} (f : α → α) (n : Nat) (xs : List α) :
    sliceModify f n ((xs.take n).map f ++ xs.drop n) =
      (xs.take (n + 1)).map f ++ xs.drop (n + 1) := by
  induction n generalizing xs with
  | zero =>
    cases xs with
    | nil => rfl
    | cons x t => simp [sliceModify]
  | succ n ih =>
    cases xs with
    | nil => rfl
    | cons x t =>
      have h := ih t
      simp only [List.take_succ_cons, List.map_cons, List.cons_append, List.drop_succ_cons,
        sliceModify_cons_succ]
      rw [h]

/-- After `n` rounds of the client-attaching loop the first `n` elements of
the slice under `key` are updated. -/
theorem forRange_setElem_upto {α : Type} (f : α → α) (key : String) (n : Nat)
    (m : GoMap (List α)) :
    forRange n (fun i m => GoMap.setElem m key i f) m =
      m.map (adjust key (fun xs => (xs.take n).map f ++ xs.drop n)) := by
  induction n with
  | zero =>
    cases m with
    | none => rfl
    | some es => simp [forRange_zero, adjust_id]
  | succ n ih =>
    rw [forRange_succ, ih]
    cases m with
    | none => rfl
    | some es =>
      simp only [GoMap.setElem, Option.map_some', adjust_comp]
      congr 2
      funext xs
      exact sliceModify_upto f n xs

/-- The whole loop `for i := range m[key] { m[key][i] = f (m[key][i]) }`
maps `f` over the slice under `key`. -/
theorem forRange_setElem {α : Type} (f : α → α) (key : String) (m : GoMap (List α)) :
    forRange (GoMap.index [] m key).length (fun i m => GoMap.setElem m key i f) m =
      m.map (adjust key (List.map f)) := by
  rw [forRange_setElem_upto]
  cases m with
  | none => rfl
  | some es =>
    simp only [Option.map_some']
    congr 1
    apply adjust_congr
    intro v hv
    simp [GoMap.index, GoMap.lookup, hv]

/-! ## Each operation in terms of its collaborator call -/

theorem Create_eq {σ : Type} (B : Behaviour σ) (w : WebhookSubscriptionServiceOp)
    (ctx : Context) (body : Option WebhookSubscriptionRequest) (s : World σ)
    (r : Reply σ WebhookSubscription)
    (hr : B.Post .subscription s.state w.client ctx "webhook-subscriptions" body none
      WebhookSubscription.zero = r) :
    w.Create B ctx body s =
      (⟨r.state, s.trace ++ [postCall w.client ctx "webhook-subscriptions" body .subscription]⟩,
        (match r.err with
          | some _ => none
          | none => some { r.out with client := w.client }),
        r.err) := by
  unfold WebhookSubscriptionServiceOp.Create Client.Post
  simp only [hr]
  obtain ⟨st, out, err⟩ := r
  cases err <;> rfl

theorem Retrieve_eq {σ : Type} (B : Behaviour σ) (w : WebhookSubscriptionServiceOp)
    (ctx : Context) (id : String) (s : World σ) (r : Reply σ WebhookSubscription)
    (hr : B.Get .subscription s.state w.client ctx ("webhook-subscriptions/" ++ id) none none
      WebhookSubscription.zero = r) :
    w.Retrieve B ctx id s =
      (⟨r.state,
          s.trace ++ [getCall w.client ctx ("webhook-subscriptions/" ++ id) .subscription]⟩,
        (match r.err with
          | some _ => none
          | none => some { r.out with client := w.client }),
        r.err) := by
  unfold WebhookSubscriptionServiceOp.Retrieve Client.Get
  simp only [Sprintf_path, hr]
  obtain ⟨st, out, err⟩ := r
  cases err <;> rfl

theorem Remove_eq {σ : Type} (B : Behaviour σ) (w : WebhookSubscriptionServiceOp)
    (ctx : Context) (id : String) (s : World σ) :
    w.Remove B ctx id s =
      (⟨(B.Delete s.state w.client ctx ("webhook-subscriptions/" ++ id) none none).1,
          s.trace ++ [deleteCall w.client ctx ("webhook-subscriptions/" ++ id)]⟩,
        (B.Delete s.state w.client ctx ("webhook-subscriptions/" ++ id) none none).2) := by
  unfold WebhookSubscriptionServiceOp.Remove Client.Delete
  simp only [Sprintf_path]
  rfl

/-- The loop of `List` and `RetrieveWebhooks` only rewrites `Embedded`. -/
theorem forRange_subscriptions (n : Nat)
    (g : Nat → GoMap (List WebhookSubscription) → GoMap (List WebhookSubscription))
    (x : WebhookSubscriptions) :
    forRange n (fun i x => { x with Embedded := g i x.Embedded }) x =
      { x with Embedded := forRange n g x.Embedded } := by
  induction n with
  | zero => rfl
  | succ n ih => rw [forRange_succ, forRange_succ, ih]

theorem forRange_webhooks (n : Nat)
    (g : Nat → GoMap (List Webhook) → GoMap (List Webhook)) (x : Webhooks) :
    forRange n (fun i x => { x with Embedded := g i x.Embedded }) x =
      { x with Embedded := forRange n g x.Embedded } := by
  induction n with
  | zero => rfl
  | succ n ih => rw [forRange_succ, forRange_succ, ih]

theorem List_eq {σ : Type} (B : Behaviour σ) (w : WebhookSubscriptionServiceOp)
    (ctx : Context) (s : World σ) (r : Reply σ WebhookSubscriptions)
    (hr : B.Get .subscriptions s.state w.client ctx "webhook-subscriptions" none none
      WebhookSubscriptions.zero = r) :
    w.List B ctx s =
      (⟨r.state, s.trace ++ [getCall w.client ctx "webhook-subscriptions" .subscriptions]⟩,
        (match r.err with
          | some _ => none
          | none => some (attachSubscriptions w.client r.out)),
        r.err) := by
  unfold WebhookSubscriptionServiceOp.List Client.Get
  simp only [hr]
  obtain ⟨st, out, err⟩ := r
  cases err with
  | some e => rfl
  | none =>
    have h1 := forRange_subscriptions
      (GoMap.index [] out.Embedded "webhook-subscriptions").length
      (fun i m => GoMap.setElem m "webhook-subscriptions" i
        (fun e => { e with client := w.client }))
      { out with client := w.client }
    have h2 := forRange_setElem (fun e : WebhookSubscription => { e with client := w.client })
      "webhook-subscriptions" out.Embedded
    refine Prod.ext rfl (Prod.ext ?_ rfl)
    refine congrArg some ?_
    refine h1.trans ?_
    simp only [h2]
    rfl

theorem index_of_lookup {V : Type} (zero : V) (m : GoMap V) (key : String) (v : V)
    (h : m.lookup key = some v) : m.index zero key = v := by
  simp [GoMap.index, h]

theorem setPaused_of_link {σ : Type} (B : Behaviour σ) (flag : Bool) (w : WebhookSubscription)
    (ctx : Context) (s : World σ) (l : Link) (hl : w.Links.lookup "self" = some l) :
    w.setPaused B flag ctx s =
      (⟨(B.Post .subscription s.state w.client ctx l.Href (some (pausedBody flag)) none w).state,
          s.trace ++ [postCall w.client ctx l.Href (some (pausedBody flag)) .subscription]⟩,
        (B.Post .subscription s.state w.client ctx l.Href (some (pausedBody flag)) none w).out,
        (B.Post .subscription s.state w.client ctx l.Href (some (pausedBody flag)) none w).err) := by
  cases flag
  · simp only [WebhookSubscription.setPaused, WebhookSubscription.Unpause, hl,
      index_of_lookup Link.zero w.Links "self" l hl]
    rfl
  · simp only [WebhookSubscription.setPaused, WebhookSubscription.Pause, hl,
      index_of_lookup Link.zero w.Links "self" l hl]
    rfl

theorem Pause_eq_setPaused {σ : Type} (B : Behaviour σ) (w : WebhookSubscription)
    (ctx : Context) (s : World σ) : w.Pause B ctx s = w.setPaused B true ctx s := rfl

theorem Unpause_eq_setPaused {σ : Type} (B : Behaviour σ) (w : WebhookSubscription)
    (ctx : Context) (s : World σ) : w.Unpause B ctx s = w.setPaused B false ctx s := rfl

theorem setPaused_of_no_link {σ : Type} (B : Behaviour σ) (flag : Bool)
    (w : WebhookSubscription) (ctx : Context) (s : World σ)
    (hl : w.Links.lookup "self" = none) :
    w.setPaused B flag ctx s = (s, w, some noSelfLink) := by
  cases flag <;>
    simp [WebhookSubscription.setPaused, WebhookSubscription.Unpause,
      WebhookSubscription.Pause, hl, noSelfLink]

theorem Remove_of_link {σ : Type} (B : Behaviour σ) (w : WebhookSubscription)
    (ctx : Context) (s : World σ) (l : Link) (hl : w.Links.lookup "self" = some l) :
    w.Remove B ctx s =
      (⟨(B.Delete s.state w.client ctx l.Href none none).1,
          s.trace ++ [deleteCall w.client ctx l.Href]⟩,
        (B.Delete s.state w.client ctx l.Href none none).2) := by
  simp only [WebhookSubscription.Remove, hl, index_of_lookup Link.zero w.Links "self" l hl]
  rfl

theorem RetrieveWebhooks_of_link {σ : Type} (B : Behaviour σ) (w : Webhook) (ctx : Context)
    (s : World σ) (l : Link) (hl : w.Links.lookup "webhooks" = some l) (r : Reply σ Webhooks)
    (hr : B.Get .webhooks s.state w.client ctx l.Href none none Webhooks.zero = r) :
    w.RetrieveWebhooks B ctx s =
      (⟨r.state, s.trace ++ [getCall w.client ctx l.Href .webhooks]⟩,
        (match r.err with
          | some _ => none
          | none => some (attachWebhooks w.client r.out)),
        r.err) := by
  unfold Webhook.RetrieveWebhooks Client.Get
  simp only [hl, index_of_lookup Link.zero w.Links "webhooks" l hl, hr]
  obtain ⟨st, out, err⟩ := r
  cases err with
  | some e => rfl
  | none =>
    have h1 := forRange_webhooks (GoMap.index [] out.Embedded "webhooks").length
      (fun i m => GoMap.setElem m "webhooks" i (fun e => { e with client := w.client }))
      { out with client := w.client }
    have h2 := forRange_setElem (fun e : Webhook => { e with client := w.client })
      "webhooks" out.Embedded
    refine Prod.ext rfl (Prod.ext ?_ rfl)
    refine congrArg some ?_
    refine h1.trans ?_
    simp only [h2]
    rfl

/-- The requests of a run of `Pause`/`Unpause` calls during which the self
link stays `l`: one request per call, carrying the flag of that call. -/
theorem pauseSeq_requests {σ : Type} (B : Behaviour σ) (ctx : Context) (l : Link)
    (flags : List Bool) (st : World σ × WebhookSubscription)
    (hkept : selfLinkKept B ctx l flags st = true) :
    (pauseSeq B ctx flags st).1.trace.map Call.request =
      st.1.trace.map Call.request ++ flags.map (pausedRequest l) := by
  induction flags generalizing st with
  | nil => simp [pauseSeq]
  | cons flag rest ih =>
    simp only [selfLinkKept, Bool.and_eq_true, decide_eq_true_eq] at hkept
    obtain ⟨hl, hrest⟩ := hkept
    simp only [pauseSeq]
    rw [ih _ hrest, setPaused_of_link B flag st.2 ctx st.1 l hl]
    simp [postCall, pausedRequest, pausedBody]

theorem index_map_adjust {α : Type} (f : α → α) (key : String) (m : GoMap (List α)) :
    GoMap.index [] (m.map (adjust key (List.map f))) key = (GoMap.index [] m key).map f := by
  cases m with
  | none => rfl
  | some es =>
    simp only [GoMap.index, GoMap.lookup, Option.map_some', lookup_adjust]
    cases es.lookup key <;> rfl

theorem lookup_map_adjust_ne {V : Type} (g : V → V) (key k : String) (hk : k ≠ key)
    (m : GoMap V) : GoMap.lookup (m.map (adjust key g)) k = GoMap.lookup m k := by
  cases m with
  | none => rfl
  | some es => simp only [GoMap.lookup, Option.map_some', lookup_adjust_ne key k hk]

theorem map_adjust_absent {V : Type} (g : V → V) (key : String) (m : GoMap V)
    (h : GoMap.lookup m key = none) : m.map (adjust key g) = m := by
  cases m with
  | none => rfl
  | some es =>
    simp only [GoMap.lookup] at h
    simp only [Option.map_some', adjust_absent key g es h]

theorem index_attachSubscriptions (c : ClientPtr) (d : WebhookSubscriptions) :
    GoMap.index [] (attachSubscriptions c d).Embedded "webhook-subscriptions" =
      (GoMap.index [] d.Embedded "webhook-subscriptions").map
        (fun e => { e with client := c }) :=
  index_map_adjust _ _ _

/-! ## C1: a missing link stops the call -/

/-- C1: for a subscription without a "self" link, Pause, Unpause and Remove
return the error "No self resource link", and for a webhook without a
"webhooks" link RetrieveWebhooks returns a nil result and the error "No
webhooks resource link"; the world (collaborator state and trace of calls) is
the one before the call, so no call was made, and the receiver is unchanged. -/
theorem missing_link_precondition {σ : Type} (B : Behaviour σ) (ctx : Context) (s : World σ)
    (w : WebhookSubscription) (h : Webhook)
    (hw : w.Links.lookup "self" = none) (hh : h.Links.lookup "webhooks" = none) :
    w.Pause B ctx s = (s, w, some ⟨"No self resource link"⟩) ∧
    w.Unpause B ctx s = (s, w, some ⟨"No self resource link"⟩) ∧
    w.Remove B ctx s = (s, some ⟨"No self resource link"⟩) ∧
    h.RetrieveWebhooks B ctx s = (s, none, some ⟨"No webhooks resource link"⟩) ∧
    (w.Pause B ctx s).1.trace = s.trace ∧
    (w.Unpause B ctx s).1.trace = s.trace ∧
    (w.Remove B ctx s).1.trace = s.trace ∧
    (h.RetrieveWebhooks B ctx s).1.trace = s.trace := by
  simp [WebhookSubscription.Pause, WebhookSubscription.Unpause, WebhookSubscription.Remove,
    Webhook.RetrieveWebhooks, hw, hh, errors.New]

/-- The missing-link precondition at a subscription without links and a webhook
without a "webhooks" link. -/
theorem missing_link_precondition_witness :
    unlinkedSubscription.Pause memServer sampleCtx sampleWorld =
        (sampleWorld, unlinkedSubscription, some ⟨"No self resource link"⟩) ∧
    unlinkedWebhook.RetrieveWebhooks memServer sampleCtx sampleWorld =
        (sampleWorld, none, some ⟨"No webhooks resource link"⟩) :=
  have h := missing_link_precondition memServer sampleCtx sampleWorld unlinkedSubscription
    unlinkedWebhook (by decide) (by decide)
  ⟨h.1, h.2.2.2.1⟩


/-! ## C2: the request of each service operation -/

/-- C2: each service operation applies the collaborator exactly once and
appends exactly that call to the trace: Create applies Post to
"webhook-subscriptions" with the caller's body, List applies Get to
"webhook-subscriptions", Retrieve applies Get and Remove applies Delete to
"webhook-subscriptions/" followed by the id as given, the empty id included;
the collaborator state after the operation and the returned error are the
ones of that call, and the result is built from what the call left in the
target. -/
theorem service_requests {σ : Type} (B : Behaviour σ) (w : WebhookSubscriptionServiceOp)
    (ctx : Context) (body : Option WebhookSubscriptionRequest) (id : String) (s : World σ) :
    w.Create B ctx body s =
      (⟨(B.Post .subscription s.state w.client ctx "webhook-subscriptions" body none
            WebhookSubscription.zero).state,
          s.trace ++ [⟨w.client, ctx, ⟨.POST, "webhook-subscriptions", body, none, none⟩,
            some .subscription⟩]⟩,
        (match (B.Post .subscription s.state w.client ctx "webhook-subscriptions" body none
            WebhookSubscription.zero).err with
          | some _ => none
          | none =>
            some { (B.Post .subscription s.state w.client ctx "webhook-subscriptions" body none
              WebhookSubscription.zero).out with client := w.client }),
        (B.Post .subscription s.state w.client ctx "webhook-subscriptions" body none
          WebhookSubscription.zero).err) ∧
    w.List B ctx s =
      (⟨(B.Get .subscriptions s.state w.client ctx "webhook-subscriptions" none none
            WebhookSubscriptions.zero).state,
          s.trace ++ [⟨w.client, ctx, ⟨.GET, "webhook-subscriptions", none, none, none⟩,
            some .subscriptions⟩]⟩,
        (match (B.Get .subscriptions s.state w.client ctx "webhook-subscriptions" none none
            WebhookSubscriptions.zero).err with
          | some _ => none
          | none =>
            some (attachSubscriptions w.client
              (B.Get .subscriptions s.state w.client ctx "webhook-subscriptions" none none
                WebhookSubscriptions.zero).out)),
        (B.Get .subscriptions s.state w.client ctx "webhook-subscriptions" none none
          WebhookSubscriptions.zero).err) ∧
    w.Retrieve B ctx id s =
      (⟨(B.Get .subscription s.state w.client ctx ("webhook-subscriptions/" ++ id) none none
            WebhookSubscription.zero).state,
          s.trace ++ [⟨w.client, ctx,
            ⟨.GET, "webhook-subscriptions/" ++ id, none, none, none⟩, some .subscription⟩]⟩,
        (match (B.Get .subscription s.state w.client ctx ("webhook-subscriptions/" ++ id) none
            none WebhookSubscription.zero).err with
          | some _ => none
          | none =>
            some { (B.Get .subscription s.state w.client ctx ("webhook-subscriptions/" ++ id)
              none none WebhookSubscription.zero).out with client := w.client }),
        (B.Get .subscription s.state w.client ctx ("webhook-subscriptions/" ++ id) none none
          WebhookSubscription.zero).err) ∧
    w.Remove B ctx id s =
      (⟨(B.Delete s.state w.client ctx ("webhook-subscriptions/" ++ id) none none).1,
          s.trace ++ [⟨w.client, ctx,
            ⟨.DELETE, "webhook-subscriptions/" ++ id, none, none, none⟩, none⟩]⟩,
        (B.Delete s.state w.client ctx ("webhook-subscriptions/" ++ id) none none).2) ∧
    w.Retrieve B ctx "" s =
      (⟨(B.Get .subscription s.state w.client ctx "webhook-subscriptions/" none none
            WebhookSubscription.zero).state,
          s.trace ++ [⟨w.client, ctx, ⟨.GET, "webhook-subscriptions/", none, none, none⟩,
            some .subscription⟩]⟩,
        (match (B.Get .subscription s.state w.client ctx "webhook-subscriptions/" none none
            WebhookSubscription.zero).err with
          | some _ => none
          | none =>
            some { (B.Get .subscription s.state w.client ctx "webhook-subscriptions/" none none
              WebhookSubscription.zero).out with client := w.client }),
        (B.Get .subscription s.state w.client ctx "webhook-subscriptions/" none none
          WebhookSubscription.zero).err) ∧
    w.Remove B ctx "" s =
      (⟨(B.Delete s.state w.client ctx "webhook-subscriptions/" none none).1,
          s.trace ++ [⟨w.client, ctx, ⟨.DELETE, "webhook-subscriptions/", none, none, none⟩,
            none⟩]⟩,
        (B.Delete s.state w.client ctx "webhook-subscriptions/" none none).2) ∧
    (w.Create B ctx body s).1.trace.length = s.trace.length + 1 ∧
    (w.List B ctx s).1.trace.length = s.trace.length + 1 ∧
    (w.Retrieve B ctx id s).1.trace.length = s.trace.length + 1 ∧
    (w.Remove B ctx id s).1.trace.length = s.trace.length + 1 := by
  have hempty : "webhook-subscriptions/" ++ "" = "webhook-subscriptions/" := by decide
  refine ⟨?_, ?_, ?_, ?_, ?_, ?_, ?_, ?_, ?_, ?_⟩
  · rw [Create_eq B w ctx body s _ rfl]; rfl
  · rw [List_eq B w ctx s _ rfl]; rfl
  · rw [Retrieve_eq B w ctx id s _ rfl]; rfl
  · rw [Remove_eq]; rfl
  · have h := Retrieve_eq B w ctx "" s _ rfl
    rw [hempty] at h
    rw [h]; rfl
  · have h := Remove_eq B w ctx "" s
    rw [hempty] at h
    rw [h]; rfl
  · rw [Create_eq B w ctx body s _ rfl]; simp
  · rw [List_eq B w ctx s _ rfl]; simp
  · rw [Retrieve_eq B w ctx id s _ rfl]; simp
  · rw [Remove_eq]; simp

/-! ## C3: the two kinds of error -/

/-- C3: the error of every operation is the error of its one collaborator
call, as returned, except that an instance operation whose link is missing
returns the local precondition error instead; an operation with a result
returns a non-nil result exactly when it returns a nil error, so a collaborator
error comes with a nil result. -/
theorem error_kinds {σ : Type} (B : Behaviour σ) (svc : WebhookSubscriptionServiceOp)
    (w : WebhookSubscription) (h : Webhook) (ctx : Context)
    (body : Option WebhookSubscriptionRequest) (id : String) (s : World σ) :
    ((svc.Create B ctx body s).2.2 =
        (B.Post .subscription s.state svc.client ctx "webhook-subscriptions" body none
          WebhookSubscription.zero).err ∧
      (svc.Create B ctx body s).2.1.isSome = (svc.Create B ctx body s).2.2.isNone) ∧
    ((svc.Retrieve B ctx id s).2.2 =
        (B.Get .subscription s.state svc.client ctx ("webhook-subscriptions/" ++ id) none none
          WebhookSubscription.zero).err ∧
      (svc.Retrieve B ctx id s).2.1.isSome = (svc.Retrieve B ctx id s).2.2.isNone) ∧
    ((svc.List B ctx s).2.2 =
        (B.Get .subscriptions s.state svc.client ctx "webhook-subscriptions" none none
          WebhookSubscriptions.zero).err ∧
      (svc.List B ctx s).2.1.isSome = (svc.List B ctx s).2.2.isNone) ∧
    (svc.Remove B ctx id s).2 =
      (B.Delete s.state svc.client ctx ("webhook-subscriptions/" ++ id) none none).2 ∧
    (w.Pause B ctx s).2.2 =
      (match w.Links.lookup "self" with
        | none => some ⟨"No self resource link"⟩
        | some l =>
          (B.Post .subscription s.state w.client ctx l.Href (some ⟨"", "", true⟩) none w).err) ∧
    (w.Unpause B ctx s).2.2 =
      (match w.Links.lookup "self" with
        | none => some ⟨"No self resource link"⟩
        | some l =>
          (B.Post .subscription s.state w.client ctx l.Href (some ⟨"", "", false⟩) none w).err) ∧
    (w.Remove B ctx s).2 =
      (match w.Links.lookup "self" with
        | none => some ⟨"No self resource link"⟩
        | some l => (B.Delete s.state w.client ctx l.Href none none).2) ∧
    ((h.RetrieveWebhooks B ctx s).2.2 =
        (match h.Links.lookup "webhooks" with
          | none => some ⟨"No webhooks resource link"⟩
          | some l => (B.Get .webhooks s.state h.client ctx l.Href none none Webhooks.zero).err) ∧
      (h.RetrieveWebhooks B ctx s).2.1.isSome = (h.RetrieveWebhooks B ctx s).2.2.isNone) := by
  refine ⟨?_, ?_, ?_, ?_, ?_, ?_, ?_, ?_⟩
  · rw [Create_eq B svc ctx body s _ rfl]
    cases (B.Post .subscription s.state svc.client ctx "webhook-subscriptions" body none
      WebhookSubscription.zero).err <;> exact ⟨rfl, rfl⟩
  · rw [Retrieve_eq B svc ctx id s _ rfl]
    cases (B.Get .subscription s.state svc.client ctx ("webhook-subscriptions/" ++ id) none none
      WebhookSubscription.zero).err <;> exact ⟨rfl, rfl⟩
  · rw [List_eq B svc ctx s _ rfl]
    cases (B.Get .subscriptions s.state svc.client ctx "webhook-subscriptions" none none
      WebhookSubscriptions.zero).err <;> exact ⟨rfl, rfl⟩
  · rw [Remove_eq]
  · cases hl : w.Links.lookup "self" with
    | none => rw [Pause_eq_setPaused, setPaused_of_no_link B true w ctx s hl]; rfl
    | some l => rw [Pause_eq_setPaused, setPaused_of_link B true w ctx s l hl]; rfl
  · cases hl : w.Links.lookup "self" with
    | none => rw [Unpause_eq_setPaused, setPaused_of_no_link B false w ctx s hl]; rfl
    | some l => rw [Unpause_eq_setPaused, setPaused_of_link B false w ctx s l hl]; rfl
  · cases hl : w.Links.lookup "self" with
    | none => simp [WebhookSubscription.Remove, hl, errors.New]
    | some l => rw [Remove_of_link B w ctx s l hl]
  · cases hl : h.Links.lookup "webhooks" with
    | none => simp [Webhook.RetrieveWebhooks, hl, errors.New]
    | some l =>
      rw [RetrieveWebhooks_of_link B h ctx s l hl _ rfl]
      dsimp only
      cases (B.Get .webhooks s.state h.client ctx l.Href none none Webhooks.zero).err <;>
        refine ⟨?_, ?_⟩ <;> rfl

/-! ## C4: the requests of the instance operations -/

/-- C4: for a subscription whose Links hold a "self" entry l, Pause and
Unpause each make exactly one call, a POST to l.Href with the receiver as the
decoding target, and Remove makes exactly one call, a DELETE to l.Href without
a body; the receiver after Pause and Unpause is what the collaborator left in
the target, and the returned error is the collaborator's. -/
theorem self_link_requests {σ : Type} (B : Behaviour σ) (w : WebhookSubscription)
    (ctx : Context) (s : World σ) (l : Link) (hl : w.Links.lookup "self" = some l) :
    w.Pause B ctx s =
      (⟨(B.Post .subscription s.state w.client ctx l.Href (some ⟨"", "", true⟩) none w).state,
          s.trace ++ [⟨w.client, ctx, ⟨.POST, l.Href, some ⟨"", "", true⟩, none, none⟩,
            some .subscription⟩]⟩,
        (B.Post .subscription s.state w.client ctx l.Href (some ⟨"", "", true⟩) none w).out,
        (B.Post .subscription s.state w.client ctx l.Href (some ⟨"", "", true⟩) none w).err) ∧
    w.Unpause B ctx s =
      (⟨(B.Post .subscription s.state w.client ctx l.Href (some ⟨"", "", false⟩) none w).state,
          s.trace ++ [⟨w.client, ctx, ⟨.POST, l.Href, some ⟨"", "", false⟩, none, none⟩,
            some .subscription⟩]⟩,
        (B.Post .subscription s.state w.client ctx l.Href (some ⟨"", "", false⟩) none w).out,
        (B.Post .subscription s.state w.client ctx l.Href (some ⟨"", "", false⟩) none w).err) ∧
    w.Remove B ctx s =
      (⟨(B.Delete s.state w.client ctx l.Href none none).1,
          s.trace ++ [⟨w.client, ctx, ⟨.DELETE, l.Href, none, none, none⟩, none⟩]⟩,
        (B.Delete s.state w.client ctx l.Href none none).2) := by
  refine ⟨?_, ?_, ?_⟩
  · rw [Pause_eq_setPaused, setPaused_of_link B true w ctx s l hl]; rfl
  · rw [Unpause_eq_setPaused, setPaused_of_link B false w ctx s l hl]; rfl
  · rw [Remove_of_link B w ctx s l hl]; rfl

/-- The requests of Pause and Remove at the stored subscription of the in-memory
service. -/
theorem self_link_requests_witness :
    sampleSubscription.Links.lookup "self" = some ⟨"webhook-subscriptions/i"⟩ ∧
    (sampleSubscription.Pause memServer sampleCtx sampleWorld).1.trace =
      [⟨some 1, sampleCtx, ⟨.POST, "webhook-subscriptions/i", some ⟨"", "", true⟩, none, none⟩,
        some .subscription⟩] ∧
    (sampleSubscription.Remove memServer sampleCtx sampleWorld).1.trace =
      [⟨some 1, sampleCtx, ⟨.DELETE, "webhook-subscriptions/i", none, none, none⟩, none⟩] :=
  have h := self_link_requests memServer sampleSubscription sampleCtx sampleWorld
    ⟨"webhook-subscriptions/i"⟩ (by decide)
  ⟨by decide, congrArg (fun r => r.1.trace) h.1, congrArg (fun r => r.1.trace) h.2.2⟩

/-! ## C5: Pause and Unpause request a fixed flag -/

/-- C5: for a subscription whose self link is l, whatever its other fields,
Pause sends a body with Paused true and Unpause one with Paused false, URL and
Secret empty; when the self link is still l after a first call, repeating the
call sends the same request again; and in a run of Pause/Unpause calls during
which the self link stays l, each call sends the request of its own flag, so
the last request of the run carries the flag of the last call. -/
theorem pause_unpause_flag {σ : Type} (B : Behaviour σ) (ctx : Context) (s : World σ)
    (w : WebhookSubscription) (l : Link) (hl : w.Links.lookup "self" = some l) :
    (w.Pause B ctx s).1.trace =
      s.trace ++ [⟨w.client, ctx, ⟨.POST, l.Href, some ⟨"", "", true⟩, none, none⟩,
        some .subscription⟩] ∧
    (w.Unpause B ctx s).1.trace =
      s.trace ++ [⟨w.client, ctx, ⟨.POST, l.Href, some ⟨"", "", false⟩, none, none⟩,
        some .subscription⟩] ∧
    ((w.Pause B ctx s).2.1.Links.lookup "self" = some l →
      ((w.Pause B ctx s).2.1.Pause B ctx (w.Pause B ctx s).1).1.trace.map Call.request =
        s.trace.map Call.request ++
          [⟨.POST, l.Href, some ⟨"", "", true⟩, none, none⟩,
            ⟨.POST, l.Href, some ⟨"", "", true⟩, none, none⟩]) ∧
    ((w.Unpause B ctx s).2.1.Links.lookup "self" = some l →
      ((w.Unpause B ctx s).2.1.Unpause B ctx (w.Unpause B ctx s).1).1.trace.map Call.request =
        s.trace.map Call.request ++
          [⟨.POST, l.Href, some ⟨"", "", false⟩, none, none⟩,
            ⟨.POST, l.Href, some ⟨"", "", false⟩, none, none⟩]) ∧
    (∀ (flags : List Bool) (g : Bool), selfLinkKept B ctx l (flags ++ [g]) (s, w) = true →
      (pauseSeq B ctx (flags ++ [g]) (s, w)).1.trace.map Call.request =
        s.trace.map Call.request ++
          (flags ++ [g]).map (fun flag => ⟨.POST, l.Href, some ⟨"", "", flag⟩, none, none⟩) ∧
      ((pauseSeq B ctx (flags ++ [g]) (s, w)).1.trace.getLast?).map Call.request =
        some ⟨.POST, l.Href, some ⟨"", "", g⟩, none, none⟩) := by
  have twice : ∀ f : Bool, (w.setPaused B f ctx s).2.1.Links.lookup "self" = some l →
      ((w.setPaused B f ctx s).2.1.setPaused B f ctx (w.setPaused B f ctx s).1).1.trace.map
          Call.request =
        s.trace.map Call.request ++ [pausedRequest l f, pausedRequest l f] := by
    intro f h2
    rw [setPaused_of_link B f _ ctx _ l h2, setPaused_of_link B f w ctx s l hl]
    simp [postCall, pausedBody, pausedRequest]
  refine ⟨?_, ?_, twice true, twice false, ?_⟩
  · rw [Pause_eq_setPaused, setPaused_of_link B true w ctx s l hl]; rfl
  · rw [Unpause_eq_setPaused, setPaused_of_link B false w ctx s l hl]; rfl
  · intro flags g hkept
    have hseq := pauseSeq_requests B ctx l (flags ++ [g]) (s, w) hkept
    refine ⟨hseq, ?_⟩
    rw [← List.getLast?_map, hseq, List.map_append, ← List.append_assoc,
      List.getLast?_append]
    rfl

/-- At the in-memory service the stored subscription keeps its self link, and
the run Pause, Unpause, Pause sends the flags true, false, true. -/
theorem pause_unpause_flag_witness :
    sampleSubscription.Links.lookup "self" = some ⟨"webhook-subscriptions/i"⟩ ∧
    selfLinkKept memServer sampleCtx ⟨"webhook-subscriptions/i"⟩ [true, false, true]
      (sampleWorld, sampleSubscription) = true ∧
    (pauseSeq memServer sampleCtx [true, false, true] (sampleWorld, sampleSubscription)).1.trace.map
        Call.request =
      [⟨.POST, "webhook-subscriptions/i", some ⟨"", "", true⟩, none, none⟩,
        ⟨.POST, "webhook-subscriptions/i", some ⟨"", "", false⟩, none, none⟩,
        ⟨.POST, "webhook-subscriptions/i", some ⟨"", "", true⟩, none, none⟩] ∧
    ((sampleSubscription.Pause memServer sampleCtx sampleWorld).2.1.Pause memServer sampleCtx
        (sampleSubscription.Pause memServer sampleCtx sampleWorld).1).1.trace.map Call.request =
      [⟨.POST, "webhook-subscriptions/i", some ⟨"", "", true⟩, none, none⟩,
        ⟨.POST, "webhook-subscriptions/i", some ⟨"", "", true⟩, none, none⟩] :=
  have h := pause_unpause_flag memServer sampleCtx sampleWorld sampleSubscription
    ⟨"webhook-subscriptions/i"⟩ (by decide)
  ⟨by decide, by decide, (h.2.2.2.2 [true, false] true (by decide)).1, h.2.2.1 (by decide)⟩

/-! ## C6: Total and the number of listed subscriptions -/

/-- C6, as stated, fails: when the collaborator decodes a page of one
subscription out of a collection of three, List succeeds and returns
Total = 3 with one subscription under "webhook-subscriptions". -/
theorem list_total_counterexample :
    (sampleService.List (cannedServer sampleSubscription 3) sampleCtx ⟨(), []⟩).2.2 = none ∧
    (sampleService.List (cannedServer sampleSubscription 3) sampleCtx ⟨(), []⟩).2.1.map
        (fun r => (r.Total, (r.Embedded.index [] "webhook-subscriptions").length)) =
      some (3, 1) := by
  decide

/-- C6, amended: for every successful List call, the Total field and the
number of subscriptions under "webhook-subscriptions" of the returned
collection are the ones the collaborator decoded; List neither computes nor
checks Total, so the two agree exactly when they agree in the decoded
response. -/
theorem list_total_decoded {σ : Type} (B : Behaviour σ) (w : WebhookSubscriptionServiceOp)
    (ctx : Context) (s : World σ) (r : WebhookSubscriptions)
    (hs : (w.List B ctx s).2 = (some r, none)) :
    r.Total =
      (B.Get .subscriptions s.state w.client ctx "webhook-subscriptions" none none
        WebhookSubscriptions.zero).out.Total ∧
    (r.Embedded.index [] "webhook-subscriptions").length =
      ((B.Get .subscriptions s.state w.client ctx "webhook-subscriptions" none none
        WebhookSubscriptions.zero).out.Embedded.index [] "webhook-subscriptions").length ∧
    (r.Total = ((r.Embedded.index [] "webhook-subscriptions").length : Int) ↔
      (B.Get .subscriptions s.state w.client ctx "webhook-subscriptions" none none
          WebhookSubscriptions.zero).out.Total =
        (((B.Get .subscriptions s.state w.client ctx "webhook-subscriptions" none none
          WebhookSubscriptions.zero).out.Embedded.index [] "webhook-subscriptions").length :
          Int)) := by
  rw [List_eq B w ctx s _ rfl] at hs
  revert hs
  cases (B.Get .subscriptions s.state w.client ctx "webhook-subscriptions" none none
    WebhookSubscriptions.zero).err with
  | some e => intro hs; simp at hs
  | none =>
    intro hs
    simp only [Prod.mk.injEq, Option.some.injEq, and_true] at hs
    subst hs
    have hlen := congrArg List.length (index_attachSubscriptions w.client
      (B.Get .subscriptions s.state w.client ctx "webhook-subscriptions" none none
        WebhookSubscriptions.zero).out)
    rw [List.length_map] at hlen
    refine ⟨rfl, hlen, ?_⟩
    rw [hlen]
    exact Iff.rfl

/-- Total and length at the in-memory service holding one subscription. -/
theorem list_total_decoded_witness :
    (sampleService.List memServer sampleCtx sampleWorld).2 =
      (some { client := some 1, Links := none, Total := 1,
              Embedded := some [("webhook-subscriptions", [sampleSubscription])] }, none) ∧
    ((1 : Int) = (([sampleSubscription] : List WebhookSubscription).length : Int) ↔
      (memServer.Get .subscriptions sampleWorld.state sampleService.client sampleCtx
          "webhook-subscriptions" none none WebhookSubscriptions.zero).out.Total =
        (((memServer.Get .subscriptions sampleWorld.state sampleService.client sampleCtx
          "webhook-subscriptions" none none WebhookSubscriptions.zero).out.Embedded.index []
            "webhook-subscriptions").length : Int)) :=
  ⟨by decide,
    (list_total_decoded memServer sampleService sampleCtx sampleWorld
      { client := some 1, Links := none, Total := 1,
        Embedded := some [("webhook-subscriptions", [sampleSubscription])] } (by decide)).2.2⟩

/-! ## C7: Create followed by Retrieve -/

/-- C7, as stated, fails: with a collaborator that answers from a canned
record, Create of a request for "https://example.org/other" succeeds with ID
"i", Retrieve of "i" succeeds, and the URL it returns is
"https://example.com/hook", not the URL of the request. -/
theorem create_retrieve_counterexample :
    (sampleService.Create (cannedServer sampleSubscription 1) sampleCtx
        (some ⟨"https://example.org/other", "", false⟩) ⟨(), []⟩).2.2 = none ∧
    (sampleService.Create (cannedServer sampleSubscription 1) sampleCtx
        (some ⟨"https://example.org/other", "", false⟩) ⟨(), []⟩).2.1.map (fun c => c.ID) =
      some "i" ∧
    (sampleService.Retrieve (cannedServer sampleSubscription 1) sampleCtx "i"
        (sampleService.Create (cannedServer sampleSubscription 1) sampleCtx
          (some ⟨"https://example.org/other", "", false⟩) ⟨(), []⟩).1).2.2 = none ∧
    (sampleService.Retrieve (cannedServer sampleSubscription 1) sampleCtx "i"
        (sampleService.Create (cannedServer sampleSubscription 1) sampleCtx
          (some ⟨"https://example.org/other", "", false⟩) ⟨(), []⟩).1).2.1.map
        (fun r => r.URL) = some "https://example.com/hook" ∧
    (sampleService.Retrieve (cannedServer sampleSubscription 1) sampleCtx "i"
        (sampleService.Create (cannedServer sampleSubscription 1) sampleCtx
          (some ⟨"https://example.org/other", "", false⟩) ⟨(), []⟩).1).2.1.map
        (fun r => r.URL) ≠ some "https://example.org/other" := by
  decide

/-- C7, amended: after a successful Create(request) returning c, a successful
Retrieve of c.ID makes a GET to "webhook-subscriptions/" followed by c.ID on
the collaborator state Create left, and returns the URL decoded from that
response, as Create returned the URL decoded from the POST response; the
returned URL is the request's URL exactly when the collaborator decoded the
request's URL, and it is the URL Create returned exactly when the two decoded
URLs agree. -/
theorem create_retrieve_url {σ : Type} (B : Behaviour σ) (w : WebhookSubscriptionServiceOp)
    (ctx : Context) (req : WebhookSubscriptionRequest) (s : World σ)
    (c r : WebhookSubscription)
    (hc : (w.Create B ctx (some req) s).2 = (some c, none))
    (hr : (w.Retrieve B ctx c.ID (w.Create B ctx (some req) s).1).2 = (some r, none)) :
    c.URL =
      (B.Post .subscription s.state w.client ctx "webhook-subscriptions" (some req) none
        WebhookSubscription.zero).out.URL ∧
    r.URL =
      (B.Get .subscription
        (B.Post .subscription s.state w.client ctx "webhook-subscriptions" (some req) none
          WebhookSubscription.zero).state
        w.client ctx ("webhook-subscriptions/" ++ c.ID) none none
        WebhookSubscription.zero).out.URL ∧
    (r.URL = req.URL ↔
      (B.Get .subscription
        (B.Post .subscription s.state w.client ctx "webhook-subscriptions" (some req) none
          WebhookSubscription.zero).state
        w.client ctx ("webhook-subscriptions/" ++ c.ID) none none
        WebhookSubscription.zero).out.URL = req.URL) ∧
    (r.URL = c.URL ↔
      (B.Get .subscription
        (B.Post .subscription s.state w.client ctx "webhook-subscriptions" (some req) none
          WebhookSubscription.zero).state
        w.client ctx ("webhook-subscriptions/" ++ c.ID) none none
        WebhookSubscription.zero).out.URL =
      (B.Post .subscription s.state w.client ctx "webhook-subscriptions" (some req) none
        WebhookSubscription.zero).out.URL) ∧
    (w.Retrieve B ctx c.ID (w.Create B ctx (some req) s).1).1.trace =
      s.trace ++
        [⟨w.client, ctx, ⟨.POST, "webhook-subscriptions", some req, none, none⟩,
            some .subscription⟩,
          ⟨w.client, ctx, ⟨.GET, "webhook-subscriptions/" ++ c.ID, none, none, none⟩,
            some .subscription⟩] := by
  have hC := Create_eq B w ctx (some req) s _ rfl
  have hR := Retrieve_eq B w ctx c.ID (w.Create B ctx (some req) s).1 _ rfl
  rw [hR] at hr
  rw [hR]
  rw [hC] at hc hr ⊢
  dsimp only at hc hr ⊢
  generalize B.Post .subscription s.state w.client ctx "webhook-subscriptions" (some req) none
    WebhookSubscription.zero = p at hc hr ⊢
  obtain ⟨pst, pout, perr⟩ := p
  cases perr with
  | some e => simp at hc
  | none =>
    simp only [Prod.mk.injEq, Option.some.injEq, and_true] at hc
    dsimp only at hr ⊢
    generalize B.Get .subscription pst w.client ctx ("webhook-subscriptions/" ++ c.ID) none none
      WebhookSubscription.zero = q at hr ⊢
    obtain ⟨qst, qout, qerr⟩ := q
    cases qerr with
    | some e => simp at hr
    | none =>
      simp only [Prod.mk.injEq, Option.some.injEq, and_true] at hr
      subst hr
      have hcu : c.URL = pout.URL := by rw [← hc]
      refine ⟨hcu, rfl, Iff.rfl, ?_, ?_⟩
      · rw [hcu]
      · simp [postCall, getCall]

/-- Create then Retrieve at the in-memory service: Create stores the second
record. -/
theorem create_retrieve_url_witness :
    (sampleService.Create memServer sampleCtx (some ⟨"https://example.org/other", "", false⟩)
        sampleWorld).2 =
      (some { memServer.record 1 "https://example.org/other" with client := some 1 }, none) ∧
    ({ memServer.record 1 "https://example.org/other" with client := some 1 } :
        WebhookSubscription).URL =
      (memServer.Post .subscription sampleWorld.state sampleService.client sampleCtx
        "webhook-subscriptions" (some ⟨"https://example.org/other", "", false⟩) none
        WebhookSubscription.zero).out.URL :=
  ⟨by decide,
    (create_retrieve_url memServer sampleService sampleCtx ⟨"https://example.org/other", "", false⟩
      sampleWorld { memServer.record 1 "https://example.org/other" with client := some 1 }
      { memServer.record 1 "https://example.org/other" with client := some 1 }
      (by decide) (by decide)).1⟩

/-! ## C8: what List changes in the decoded collection -/

/-- C8: when the collaborator call of List returns no error and leaves d in
the target, List succeeds with a collection r that carries the service's
client, as does every subscription under "webhook-subscriptions"; the number
and order of these subscriptions and the ID, URL, Created and Links of each,
the Total field, the collection's Links and the entries under every other
Embedded key are those of d; a nil Embedded stays nil and an Embedded without
the "webhook-subscriptions" key is returned as decoded. -/
theorem list_frame {σ : Type} (B : Behaviour σ) (w : WebhookSubscriptionServiceOp)
    (ctx : Context) (s : World σ) (d : WebhookSubscriptions)
    (hd : (B.Get .subscriptions s.state w.client ctx "webhook-subscriptions" none none
      WebhookSubscriptions.zero).out = d)
    (herr : (B.Get .subscriptions s.state w.client ctx "webhook-subscriptions" none none
      WebhookSubscriptions.zero).err = none) :
    ∃ r : WebhookSubscriptions,
      (w.List B ctx s).2 = (some r, none) ∧
      r.client = w.client ∧
      (∀ x ∈ r.Embedded.index [] "webhook-subscriptions", x.client = w.client) ∧
      (r.Embedded.index [] "webhook-subscriptions").length =
        (d.Embedded.index [] "webhook-subscriptions").length ∧
      (r.Embedded.index [] "webhook-subscriptions").map
          (fun x => (x.ID, x.URL, x.Created, x.Links)) =
        (d.Embedded.index [] "webhook-subscriptions").map
          (fun x => (x.ID, x.URL, x.Created, x.Links)) ∧
      r.Total = d.Total ∧
      r.Links = d.Links ∧
      (∀ k, k ≠ "webhook-subscriptions" → r.Embedded.lookup k = d.Embedded.lookup k) ∧
      r.Embedded.map (List.map Prod.fst) = d.Embedded.map (List.map Prod.fst) ∧
      (d.Embedded = none → r.Embedded = none) ∧
      (d.Embedded.lookup "webhook-subscriptions" = none → r.Embedded = d.Embedded) := by
  refine ⟨attachSubscriptions w.client d, ?_, rfl, ?_, ?_, ?_, rfl, rfl, ?_, ?_, ?_, ?_⟩
  · rw [List_eq B w ctx s _ rfl, herr, hd]
  · intro x hx
    rw [index_attachSubscriptions] at hx
    obtain ⟨y, _, rfl⟩ := List.mem_map.mp hx
    rfl
  · rw [index_attachSubscriptions, List.length_map]
  · rw [index_attachSubscriptions, List.map_map]
    rfl
  · intro k hk
    exact lookup_map_adjust_ne _ _ k hk d.Embedded
  · show (d.Embedded.map _).map _ = _
    cases d.Embedded with
    | none => rfl
    | some es =>
      simp only [Option.map_some', Option.some.injEq]
      induction es with
      | nil => rfl
      | cons e es ih =>
        obtain ⟨k, v⟩ := e
        by_cases hk : "webhook-subscriptions" = k
        · simp [adjust, hk]
        · simp [adjust, hk, ih]
  · intro h
    show d.Embedded.map _ = none
    rw [h]
    rfl
  · intro h
    exact map_adjust_absent _ _ d.Embedded h

/-- List at the in-memory service holding one subscription. -/
theorem list_frame_witness :
    ∃ r : WebhookSubscriptions,
      (sampleService.List memServer sampleCtx sampleWorld).2 = (some r, none) ∧
      r.client = some 1 ∧
      (∀ x ∈ r.Embedded.index [] "webhook-subscriptions", x.client = some 1) ∧
      (r.Embedded.index [] "webhook-subscriptions").length = 1 :=
  have h := list_frame memServer sampleService sampleCtx sampleWorld
    { client := none, Links := none, Total := 1,
      Embedded := some [("webhook-subscriptions", [memServer.record 0 "https://example.com/hook"])] }
    (by decide) (by decide)
  h.elim fun r hr => ⟨r, hr.1, hr.2.1, hr.2.2.1, hr.2.2.2.1⟩

/-! ## C9: what Create and Retrieve change in the decoded subscription -/

/-- C9: a Create or Retrieve call that returns a nil error returns a non-nil
subscription c which carries the service's client, so that the call made by
its Pause, Unpause and Remove is made on that client, and whose ID, URL,
Created and Links are the ones the collaborator left in the target. -/
theorem create_retrieve_frame {σ : Type} (B : Behaviour σ) (w : WebhookSubscriptionServiceOp)
    (ctx : Context) (body : Option WebhookSubscriptionRequest) (id : String) (s : World σ) :
    ((w.Create B ctx body s).2.2 = none →
      ∃ c : WebhookSubscription,
        (w.Create B ctx body s).2.1 = some c ∧
        c = { (B.Post .subscription s.state w.client ctx "webhook-subscriptions" body none
                WebhookSubscription.zero).out with client := w.client } ∧
        c.client = w.client ∧
        (c.ID, c.URL, c.Created, c.Links) =
          ((B.Post .subscription s.state w.client ctx "webhook-subscriptions" body none
              WebhookSubscription.zero).out.ID,
            (B.Post .subscription s.state w.client ctx "webhook-subscriptions" body none
              WebhookSubscription.zero).out.URL,
            (B.Post .subscription s.state w.client ctx "webhook-subscriptions" body none
              WebhookSubscription.zero).out.Created,
            (B.Post .subscription s.state w.client ctx "webhook-subscriptions" body none
              WebhookSubscription.zero).out.Links) ∧
        ∀ (l : Link) (ctx' : Context) (s' : World σ), c.Links.lookup "self" = some l →
          ((c.Pause B ctx' s').1.trace.getLast?).map Call.client = some w.client ∧
          ((c.Unpause B ctx' s').1.trace.getLast?).map Call.client = some w.client ∧
          ((c.Remove B ctx' s').1.trace.getLast?).map Call.client = some w.client) ∧
    ((w.Retrieve B ctx id s).2.2 = none →
      ∃ c : WebhookSubscription,
        (w.Retrieve B ctx id s).2.1 = some c ∧
        c = { (B.Get .subscription s.state w.client ctx ("webhook-subscriptions/" ++ id) none
                none WebhookSubscription.zero).out with client := w.client } ∧
        c.client = w.client ∧
        (c.ID, c.URL, c.Created, c.Links) =
          ((B.Get .subscription s.state w.client ctx ("webhook-subscriptions/" ++ id) none none
              WebhookSubscription.zero).out.ID,
            (B.Get .subscription s.state w.client ctx ("webhook-subscriptions/" ++ id) none none
              WebhookSubscription.zero).out.URL,
            (B.Get .subscription s.state w.client ctx ("webhook-subscriptions/" ++ id) none none
              WebhookSubscription.zero).out.Created,
            (B.Get .subscription s.state w.client ctx ("webhook-subscriptions/" ++ id) none none
              WebhookSubscription.zero).out.Links) ∧
        ∀ (l : Link) (ctx' : Context) (s' : World σ), c.Links.lookup "self" = some l →
          ((c.Pause B ctx' s').1.trace.getLast?).map Call.client = some w.client ∧
          ((c.Unpause B ctx' s').1.trace.getLast?).map Call.client = some w.client ∧
          ((c.Remove B ctx' s').1.trace.getLast?).map Call.client = some w.client) := by
  have key : ∀ (c : WebhookSubscription), c.client = w.client →
      ∀ (l : Link) (ctx' : Context) (s' : World σ), c.Links.lookup "self" = some l →
        ((c.Pause B ctx' s').1.trace.getLast?).map Call.client = some w.client ∧
        ((c.Unpause B ctx' s').1.trace.getLast?).map Call.client = some w.client ∧
        ((c.Remove B ctx' s').1.trace.getLast?).map Call.client = some w.client := by
    intro c hcl l ctx' s' hl
    rw [Pause_eq_setPaused, Unpause_eq_setPaused, setPaused_of_link B true c ctx' s' l hl,
      setPaused_of_link B false c ctx' s' l hl, Remove_of_link B c ctx' s' l hl]
    simp [postCall, deleteCall, hcl]
  constructor
  · intro hs
    rw [Create_eq B w ctx body s _ rfl] at hs ⊢
    dsimp only at hs ⊢
    rw [hs]
    exact ⟨_, rfl, rfl, rfl, rfl, key _ rfl⟩
  · intro hs
    rw [Retrieve_eq B w ctx id s _ rfl] at hs ⊢
    dsimp only at hs ⊢
    rw [hs]
    exact ⟨_, rfl, rfl, rfl, rfl, key _ rfl⟩

/-- Create and Retrieve at the in-memory service: both calls succeed. -/
theorem create_retrieve_frame_witness :
    (sampleService.Create memServer sampleCtx (some ⟨"https://example.org/other", "", false⟩)
        sampleWorld).2.2 = none ∧
    (sampleService.Retrieve memServer sampleCtx "i" sampleWorld).2.2 = none ∧
    (∃ c : WebhookSubscription,
      (sampleService.Create memServer sampleCtx (some ⟨"https://example.org/other", "", false⟩)
        sampleWorld).2.1 = some c ∧ c.client = some 1) ∧
    (∃ c : WebhookSubscription,
      (sampleService.Retrieve memServer sampleCtx "i" sampleWorld).2.1 = some c ∧
        c.client = some 1) :=
  have h := create_retrieve_frame memServer sampleService sampleCtx
    (some ⟨"https://example.org/other", "", false⟩) "i" sampleWorld
  ⟨by decide, by decide,
    (h.1 (by decide)).elim (fun c hc => ⟨c, hc.1, hc.2.2.1⟩),
    (h.2 (by decide)).elim (fun c hc => ⟨c, hc.1, hc.2.2.1⟩)⟩

/-! ## C10: the precondition looks at the key only -/

/-- C10: Pause, Unpause, Remove and RetrieveWebhooks return the precondition
error without a call exactly when the key ("self", respectively "webhooks") is
absent from Links; when the key is present with any link l, exactly one call
is made, to l.Href whatever it is, so a subscription or webhook whose link has
an empty Href passes the check and a request goes to the empty URL. -/
theorem precondition_key_only {σ : Type} (B : Behaviour σ) (w : WebhookSubscription)
    (h : Webhook) (ctx : Context) (s : World σ) :
    (w.Pause B ctx s = (s, w, some ⟨"No self resource link"⟩) ↔
      w.Links.lookup "self" = none) ∧
    (w.Unpause B ctx s = (s, w, some ⟨"No self resource link"⟩) ↔
      w.Links.lookup "self" = none) ∧
    (w.Remove B ctx s = (s, some ⟨"No self resource link"⟩) ↔
      w.Links.lookup "self" = none) ∧
    (h.RetrieveWebhooks B ctx s = (s, none, some ⟨"No webhooks resource link"⟩) ↔
      h.Links.lookup "webhooks" = none) ∧
    (∀ l : Link, w.Links.lookup "self" = some l →
      (w.Pause B ctx s).1.trace =
        s.trace ++ [⟨w.client, ctx, ⟨.POST, l.Href, some ⟨"", "", true⟩, none, none⟩,
          some .subscription⟩] ∧
      (w.Unpause B ctx s).1.trace =
        s.trace ++ [⟨w.client, ctx, ⟨.POST, l.Href, some ⟨"", "", false⟩, none, none⟩,
          some .subscription⟩] ∧
      (w.Remove B ctx s).1.trace =
        s.trace ++ [⟨w.client, ctx, ⟨.DELETE, l.Href, none, none, none⟩, none⟩]) ∧
    (∀ l : Link, h.Links.lookup "webhooks" = some l →
      (h.RetrieveWebhooks B ctx s).1.trace =
        s.trace ++ [⟨h.client, ctx, ⟨.GET, l.Href, none, none, none⟩, some .webhooks⟩]) ∧
    (emptyHrefSubscription.Links.lookup "self" = some ⟨""⟩ ∧
      (emptyHrefSubscription.Pause B ctx s).1.trace =
        s.trace ++ [⟨some 1, ctx, ⟨.POST, "", some ⟨"", "", true⟩, none, none⟩,
          some .subscription⟩]) ∧
    (emptyHrefWebhook.Links.lookup "webhooks" = some ⟨""⟩ ∧
      (emptyHrefWebhook.RetrieveWebhooks B ctx s).1.trace =
        s.trace ++ [⟨some 1, ctx, ⟨.GET, "", none, none, none⟩, some .webhooks⟩]) := by
  have grow : ∀ (st : σ) (c : Call), (⟨st, s.trace ++ [c]⟩ : World σ) ≠ s := by
    intro st c hEq
    have hlen := congrArg (fun x : World σ => x.trace.length) hEq
    simp at hlen
  have hP : ∀ l : Link, w.Links.lookup "self" = some l →
      (w.Pause B ctx s).1.trace =
        s.trace ++ [⟨w.client, ctx, ⟨.POST, l.Href, some ⟨"", "", true⟩, none, none⟩,
          some .subscription⟩] ∧
      (w.Unpause B ctx s).1.trace =
        s.trace ++ [⟨w.client, ctx, ⟨.POST, l.Href, some ⟨"", "", false⟩, none, none⟩,
          some .subscription⟩] ∧
      (w.Remove B ctx s).1.trace =
        s.trace ++ [⟨w.client, ctx, ⟨.DELETE, l.Href, none, none, none⟩, none⟩] := by
    intro l hl
    rw [Pause_eq_setPaused, Unpause_eq_setPaused, setPaused_of_link B true w ctx s l hl,
      setPaused_of_link B false w ctx s l hl, Remove_of_link B w ctx s l hl]
    exact ⟨rfl, rfl, rfl⟩
  have hW : ∀ (h : Webhook) (l : Link), h.Links.lookup "webhooks" = some l →
      (h.RetrieveWebhooks B ctx s).1.trace =
        s.trace ++ [⟨h.client, ctx, ⟨.GET, l.Href, none, none, none⟩, some .webhooks⟩] := by
    intro h l hl
    rw [RetrieveWebhooks_of_link B h ctx s l hl _ rfl]
    rfl
  have absent : ∀ {α : Type} (o : Option α) (t : List Call),
      (∀ l, o = some l → ∃ c, t = s.trace ++ [c]) → t = s.trace → o = none := by
    intro α o t hpresent ht
    cases o with
    | none => rfl
    | some l =>
      obtain ⟨c, hc⟩ := hpresent l rfl
      rw [ht] at hc
      have hlen := congrArg List.length hc
      simp at hlen
  refine ⟨⟨?_, ?_⟩, ⟨?_, ?_⟩, ⟨?_, ?_⟩, ⟨?_, ?_⟩, hP, hW h, ⟨by decide, ?_⟩, ⟨by decide, ?_⟩⟩
  · intro hEq
    exact absent _ _ (fun l hl => ⟨_, (hP l hl).1⟩) (congrArg (fun r => r.1.trace) hEq)
  · intro hl
    rw [Pause_eq_setPaused, setPaused_of_no_link B true w ctx s hl]; rfl
  · intro hEq
    exact absent _ _ (fun l hl => ⟨_, (hP l hl).2.1⟩) (congrArg (fun r => r.1.trace) hEq)
  · intro hl
    rw [Unpause_eq_setPaused, setPaused_of_no_link B false w ctx s hl]; rfl
  · intro hEq
    exact absent _ _ (fun l hl => ⟨_, (hP l hl).2.2⟩) (congrArg (fun r => r.1.trace) hEq)
  · intro hl
    simp [WebhookSubscription.Remove, hl, errors.New]
  · intro hEq
    exact absent _ _ (fun l hl => ⟨_, hW h l hl⟩) (congrArg (fun r => r.1.trace) hEq)
  · intro hl
    simp [Webhook.RetrieveWebhooks, hl, errors.New]
  · rw [Pause_eq_setPaused, setPaused_of_link B true emptyHrefSubscription ctx s ⟨""⟩ (by decide)]
    rfl
  · exact hW emptyHrefWebhook ⟨""⟩ (by decide)

/-- The precondition at a subscription with a self link and at one without
links. -/
theorem precondition_key_only_witness :
    (sampleSubscription.Pause memServer sampleCtx sampleWorld).1.trace =
      sampleWorld.trace ++
        [⟨some 1, sampleCtx, ⟨.POST, "webhook-subscriptions/i", some ⟨"", "", true⟩, none, none⟩,
          some .subscription⟩] ∧
    unlinkedSubscription.Pause memServer sampleCtx sampleWorld =
      (sampleWorld, unlinkedSubscription, some ⟨"No self resource link"⟩) :=
  ⟨((precondition_key_only memServer sampleSubscription unlinkedWebhook sampleCtx
      sampleWorld).2.2.2.2.1 ⟨"webhook-subscriptions/i"⟩ (by decide)).1,
    (precondition_key_only memServer unlinkedSubscription unlinkedWebhook sampleCtx
      sampleWorld).1.mpr (by decide)⟩

end Dwolla
